import Mathlib

set_option maxRecDepth 100000

/-!
Verification of the SEO-Pocket content-acquisition core.

This file shallowly embeds the core of the repository:
* the cloaking comparator (backend/services/cloaking.py),
* the multi-strategy fetch cascade (backend/services/fetcher.py),
* the TTL cache (backend/services/cache.py),
* the acquisition part of the analyze route (backend/api/routes/analyze.py),
and proves or refutes the specification claims about them.

Python strings are modelled as `List Char`.  Python `difflib` (used by the
comparator for the line diff) is modelled faithfully below in namespace
`Difflib`; the only deliberate deviation is that float ratio arithmetic is
carried out in exact rationals `ℚ` (comparisons such as `ratio() > 0.74` are
exact-rational comparisons; the constants 0.74/0.75 are exact decimals).
-/

/-- Python `str.lower` (modelled for ASCII; every signature string compared
case-insensitively in the source is ASCII). -/
def pyLower (s : List Char) : List Char := s.map Char.toLower

/-- The character class of Python's regex `\s` / `str.strip` whitespace
(ASCII whitespace plus the Unicode whitespace code points Python treats
as `\s` in `str` patterns). -/
def pyIsSpace (c : Char) : Bool :=
  c = ' ' || c = '\t' || c = '\n' || c = '\r' || c = '\x0b' || c = '\x0c' ||
  c = '\x1c' || c = '\x1d' || c = '\x1e' || c = '\x1f' || c = '\u0085' ||
  c = '\u00A0' || c = '\u1680' ||
  ('\u2000' ≤ c && c ≤ '\u200A') ||
  c = '\u2028' || c = '\u2029' || c = '\u202F' || c = '\u205F' || c = '\u3000'

/-- Model of `re.sub(r'\s+', ' ', s)`: every maximal run of whitespace is
replaced by a single space.  The Boolean flag records whether we are inside
a whitespace run whose replacement space was already emitted. -/
def collapseAux : Bool → List Char → List Char
  | _, [] => []
  | inRun, c :: rest =>
    if pyIsSpace c then
      (if inRun then [] else [' ']) ++ collapseAux true rest
    else
      c :: collapseAux false rest

/-- Model of `re.sub(r'\s+', ' ', s)`. -/
def collapseWs (s : List Char) : List Char := collapseAux false s

/-- Python `str.strip()`. -/
def pyStrip (s : List Char) : List Char :=
  ((s.dropWhile pyIsSpace).reverse.dropWhile pyIsSpace).reverse

/-- Python `str.split('\n')` (note `''.split('\n') == ['']`). -/
def pySplitNl : List Char → List (List Char)
  | [] => [[]]
  | c :: rest =>
    if c = '\n' then [] :: pySplitNl rest
    else
      match pySplitNl rest with
      | [] => [[c]]
      | h :: t => (c :: h) :: t

theorem mem_collapseAux {c : Char} {b : Bool} {s : List Char}
    (h : c ∈ collapseAux b s) : c = ' ' ∨ pyIsSpace c = false := by
  induction s generalizing b with
  | nil => simp [collapseAux] at h
  | cons d rest ih =>
    by_cases hd : pyIsSpace d
    · cases b with
      | true => simp [collapseAux, hd] at h; exact ih h
      | false =>
        simp [collapseAux, hd] at h
        rcases h with h | h
        · exact Or.inl h
        · exact ih h
    · simp [collapseAux, hd] at h
      rcases h with h | h
      · subst h; exact Or.inr (by simpa using hd)
      · exact ih h

theorem mem_pyStrip {c : Char} {s : List Char} (h : c ∈ pyStrip s) : c ∈ s := by
  unfold pyStrip at h
  rw [List.mem_reverse] at h
  have h2 := List.Sublist.mem h (List.dropWhile_sublist pyIsSpace)
  rw [List.mem_reverse] at h2
  exact List.Sublist.mem h2 (List.dropWhile_sublist pyIsSpace)

theorem newline_not_mem_collapseWs (s : List Char) : '\n' ∉ collapseWs s := by
  intro h
  rcases mem_collapseAux h with h | h
  · simp at h
  · simp [pyIsSpace] at h

theorem pySplitNl_no_newline {s : List Char} (h : '\n' ∉ s) :
    pySplitNl s = [s] := by
  induction s with
  | nil => rfl
  | cons c rest ih =>
    have hc : ¬ c = '\n' := fun hc => h (hc ▸ List.mem_cons_self c rest)
    have hrest : '\n' ∉ rest := fun hr => h (List.mem_cons_of_mem c hr)
    simp only [pySplitNl, if_neg hc, ih hrest]

namespace Difflib

/-!
A model of CPython `difflib.SequenceMatcher` and of the part of
`difflib.Differ.compare` that the comparator observes (the counts of lines
tagged `+ ` and `- `).  The matcher is generic in the element type, the junk
predicate (`isjunk`) and the `autojunk` flag; the comparator instantiates it
at lines (`isjunk = None`, i.e. nothing is junk) and `_fancy_replace`
instantiates it at characters (`charjunk = IS_CHARACTER_JUNK`).
Block lists are produced in sorted order directly, matching the sort in
`get_matching_blocks`.  Recursions that Python drives by a work queue are
given explicit fuel; the fuel chosen always exceeds the recursion depth.
-/

variable {α : Type} [DecidableEq α] [Inhabited α]

/-- Association-list lookup (used for Python dicts keyed by naturals). -/
def dgetN (l : List (Nat × Nat)) (k : Nat) : Option Nat :=
  (l.find? (fun p => p.1 == k)).map Prod.snd

/-- Ascending list of the positions of `x` in `b` (the `b2j` entries before
junk and popularity filtering). -/
def elemPositions (b : List α) (x : α) : List Nat :=
  (List.range b.length).filter (fun j => decide (b.get? j = some x))

/-- The `b2j` lookup of `SequenceMatcher.__chain_b`: junk elements are
dropped, and when `autojunk` is on and `len(b) >= 200`, popular elements
(more than `len(b) // 100 + 1` occurrences) are dropped as well. -/
def b2jGet (jk : α → Bool) (aj : Bool) (b : List α) (x : α) : List Nat :=
  if jk x then []
  else if aj && decide (200 ≤ b.length) &&
      decide (b.length / 100 + 1 < (elemPositions b x).length) then []
  else elemPositions b x

/-- Bounded while-loop used for the four extension loops of
`find_longest_match`; the fuel always dominates the iteration count. -/
def whileN {σ : Type} : Nat → (σ → Bool) → (σ → σ) → σ → σ
  | 0, _, _, s => s
  | n + 1, c, f, s => if c s then whileN n c f (f s) else s

/-- The dynamic-programming loop of `find_longest_match`: for each `i` the
dict `j2len` maps `j` to the length of the longest common suffix ending at
`(i, j)`; `k > bestsize` updates the best triple. -/
def flmDp (jk : α → Bool) (aj : Bool) (a b : List α)
    (alo ahi blo bhi : Nat) : Nat × Nat × Nat :=
  let step := fun (acc : List (Nat × Nat) × Nat × Nat × Nat) (i : Nat) =>
    match acc with
    | (j2len, besti, bestj, bestsize) =>
      let js := (b2jGet jk aj b (a.getD i default)).filter
        (fun j => decide (blo ≤ j) && decide (j < bhi))
      let inner := fun (acc2 : List (Nat × Nat) × Nat × Nat × Nat) (j : Nat) =>
        match acc2 with
        | (newj2len, bi, bj, bs) =>
          let k := (if j = 0 then 0 else (dgetN j2len (j - 1)).getD 0) + 1
          if bs < k then ((j, k) :: newj2len, i + 1 - k, j + 1 - k, k)
          else ((j, k) :: newj2len, bi, bj, bs)
      let res := js.foldl inner ([], besti, bestj, bestsize)
      res
  let res := ((List.range (ahi - alo)).map (· + alo)).foldl step ([], alo, blo, 0)
  res.2

/-- Model of `SequenceMatcher.find_longest_match` on the slice
`a[alo:ahi], b[blo:bhi]`: the dp loop followed by the four extension loops
(non-junk backward/forward, then junk backward/forward). -/
def find_longest_match (jk : α → Bool) (aj : Bool) (a b : List α)
    (alo ahi blo bhi : Nat) : Nat × Nat × Nat :=
  let d := flmDp jk aj a b alo ahi blo bhi
  let backCond := fun (junkWanted : Bool) (p : Nat × Nat × Nat) =>
    match p with
    | (i, j, _) =>
      decide (alo < i) && decide (blo < j) &&
      (jk (b.getD (j - 1) default) == junkWanted) &&
      decide (a.getD (i - 1) default = b.getD (j - 1) default)
  let fwdCond := fun (junkWanted : Bool) (p : Nat × Nat × Nat) =>
    match p with
    | (i, j, k) =>
      decide (i + k < ahi) && decide (j + k < bhi) &&
      (jk (b.getD (j + k) default) == junkWanted) &&
      decide (a.getD (i + k) default = b.getD (j + k) default)
  let backStep := fun (p : Nat × Nat × Nat) =>
    match p with | (i, j, k) => (i - 1, j - 1, k + 1)
  let fwdStep := fun (p : Nat × Nat × Nat) =>
    match p with | (i, j, k) => (i, j, k + 1)
  let s1 := whileN (ahi + bhi) (backCond false) backStep d
  let s2 := whileN (ahi + bhi) (fwdCond false) fwdStep s1
  let s3 := whileN (ahi + bhi) (backCond true) backStep s2
  let s4 := whileN (ahi + bhi) (fwdCond true) fwdStep s3
  s4

/-- The recursive region splitting of `get_matching_blocks` (Python drives it
with a work queue; the set of regions processed is the same).  Blocks are
emitted left to right, i.e. already in the sorted order Python establishes
with `matching_blocks.sort()`.  The first argument is fuel; the sum of the
two slice lengths plus one always suffices. -/
def raw_blocks (jk : α → Bool) (aj : Bool) (a b : List α) :
    Nat → Nat → Nat → Nat → Nat → List (Nat × Nat × Nat)
  | 0, _, _, _, _ => []
  | n + 1, alo, ahi, blo, bhi =>
    let m := find_longest_match jk aj a b alo ahi blo bhi
    match m with
    | (i, j, k) =>
      if k = 0 then []
      else
        (if alo < i ∧ blo < j then raw_blocks jk aj a b n alo i blo j else [])
        ++ [(i, j, k)]
        ++ (if i + k < ahi ∧ j + k < bhi then
              raw_blocks jk aj a b n (i + k) ahi (j + k) bhi else [])

/-- The adjacent-block merging pass of `get_matching_blocks`. -/
def merge_blocks : Nat × Nat × Nat → List (Nat × Nat × Nat) → List (Nat × Nat × Nat)
  | (i1, j1, k1), [] => if k1 ≠ 0 then [(i1, j1, k1)] else []
  | (i1, j1, k1), (i2, j2, k2) :: rest =>
    if i1 + k1 = i2 ∧ j1 + k1 = j2 then merge_blocks (i1, j1, k1 + k2) rest
    else (if k1 ≠ 0 then [(i1, j1, k1)] else []) ++ merge_blocks (i2, j2, k2) rest

/-- Model of `SequenceMatcher.get_matching_blocks`, ending with the `(la, lb, 0)`
terminator. -/
def get_matching_blocks (jk : α → Bool) (aj : Bool) (a b : List α) :
    List (Nat × Nat × Nat) :=
  merge_blocks (0, 0, 0)
    (raw_blocks jk aj a b (a.length + b.length + 1) 0 a.length 0 b.length)
  ++ [(a.length, b.length, 0)]

/-- Opcode tags of `SequenceMatcher.get_opcodes`. -/
inductive Tag
  | rep
  | del
  | ins
  | eql
deriving DecidableEq

/-- The opcode construction loop of `get_opcodes`. -/
def opcodesAux : List (Nat × Nat × Nat) → Nat → Nat → List (Tag × Nat × Nat × Nat × Nat)
  | [], _, _ => []
  | (ai, bj, sz) :: rest, i, j =>
    (if i < ai ∧ j < bj then [(Tag.rep, i, ai, j, bj)]
     else if i < ai then [(Tag.del, i, ai, j, bj)]
     else if j < bj then [(Tag.ins, i, ai, j, bj)]
     else [])
    ++ (if sz ≠ 0 then [(Tag.eql, ai, ai + sz, bj, bj + sz)] else [])
    ++ opcodesAux rest (ai + sz) (bj + sz)

/-- Model of `SequenceMatcher.get_opcodes`. -/
def get_opcodes (jk : α → Bool) (aj : Bool) (a b : List α) :
    List (Tag × Nat × Nat × Nat × Nat) :=
  opcodesAux (get_matching_blocks jk aj a b) 0 0

/-- Model of `difflib._calculate_ratio` in exact rationals. -/
def calcRatioQ (m length : Nat) : ℚ :=
  if length ≠ 0 then 2 * (m : ℚ) / (length : ℚ) else 1

/-- Total size of all matching blocks (the `matches` of
`SequenceMatcher.ratio`). -/
def matchesTotal (jk : α → Bool) (aj : Bool) (a b : List α) : Nat :=
  ((get_matching_blocks jk aj a b).map (fun t => t.2.2)).foldl (· + ·) 0

/-- Model of `SequenceMatcher.ratio` in exact rationals. -/
def ratioOf (jk : α → Bool) (aj : Bool) (a b : List α) : ℚ :=
  calcRatioQ (matchesTotal jk aj a b) (a.length + b.length)

/-- Model of `SequenceMatcher.quick_ratio` in exact rationals: the matches count is
the multiset-intersection size of the two sequences. -/
def quickRatioOf (a b : List α) : ℚ :=
  calcRatioQ ((a.dedup.map (fun x => min (a.count x) (b.count x))).foldl (· + ·) 0)
    (a.length + b.length)

/-- Model of `SequenceMatcher.real_quick_ratio` in exact rationals. -/
def realQuickRatioOf (a b : List α) : ℚ :=
  calcRatioQ (min a.length b.length) (a.length + b.length)

/-- Model of `difflib.IS_CHARACTER_JUNK` (the `charjunk` of `Differ`). -/
def charJunk (c : Char) : Bool := c = ' ' || c = '\t'

/-- The line-level junk predicate of `Differ` (`linejunk=None`: nothing is
junk; only autojunk popularity filtering applies). -/
def lineJunk (_ : List Char) : Bool := false

/-- The double scan of `Differ._fancy_replace` over the replace region:
returns the final `best_ratio`, `best_i`, `best_j` and the first identical
pair `(eqi, eqj)` if any.  `best_i`/`best_j` start at 0 and are only
meaningful when `best_ratio` was raised above its 0.74 seed, exactly as in
the source where they are unbound until first assignment. -/
def fancyScan (a b : List (List Char)) (alo ahi blo bhi : Nat) :
    ℚ × Nat × Nat × Option (Nat × Nat) :=
  ((List.range (bhi - blo)).map (· + blo)).foldl
    (fun acc j =>
      ((List.range (ahi - alo)).map (· + alo)).foldl
        (fun acc2 i =>
          match acc2 with
          | (br, bi, bj, eq) =>
            let ai := a.getD i default
            let bj2 := b.getD j default
            if ai = bj2 then
              (br, bi, bj, if eq = none then some (i, j) else eq)
            else
              let r := ratioOf charJunk true ai bj2
              if realQuickRatioOf ai bj2 > br && quickRatioOf ai bj2 > br &&
                  r > br then
                (r, i, j, eq)
              else (br, bi, bj, eq))
        acc)
    ((0.74 : ℚ), 0, 0, none)

/-- The `(- , +)` line counts produced by `Differ._fancy_replace` (with
`_fancy_helper` inlined as the local `helper`): a synch pair that is
identical contributes a `'  '` line (counted in neither side), a merely
similar synch pair contributes one `'- '` and one `'+ '` line, and when no
synch point is found `_plain_replace` dumps the whole region.  The first
argument is fuel; the region size bounds the recursion depth. -/
def fancy_replace : Nat → List (List Char) → List (List Char) →
    Nat → Nat → Nat → Nat → Nat × Nat
  | 0, _, _, _, _, _, _ => (0, 0)
  | n + 1, a, b, alo, ahi, blo, bhi =>
    let s := fancyScan a b alo ahi blo bhi
    match s with
    | (br, bi, bj, eq) =>
      let helper := fun (al ah bl bh : Nat) =>
        if al < ah then
          (if bl < bh then fancy_replace n a b al ah bl bh else (ah - al, 0))
        else if bl < bh then ((0 : Nat), bh - bl) else (0, 0)
      if br < (0.75 : ℚ) then
        match eq with
        | none => (ahi - alo, bhi - blo)
        | some (ei, ej) =>
          let before := helper alo ei blo ej
          let after := helper (ei + 1) ahi (ej + 1) bhi
          (before.1 + after.1, before.2 + after.2)
      else
        let before := helper alo bi blo bj
        let after := helper (bi + 1) ahi (bj + 1) bhi
        (before.1 + 1 + after.1, before.2 + 1 + after.2)

/-- The `(- , +)` line counts of `Differ.compare(a, b)`: `'- '` lines are
lines of `a` only, `'+ '` lines are lines of `b` only. -/
def differ_counts (a b : List (List Char)) : Nat × Nat :=
  (get_opcodes lineJunk true a b).foldl
    (fun acc op =>
      match op with
      | (Tag.rep, alo, ahi, blo, bhi) =>
        let p := fancy_replace ((ahi - alo) + (bhi - blo) + 1) a b alo ahi blo bhi
        (acc.1 + p.1, acc.2 + p.2)
      | (Tag.del, alo, ahi, _, _) => (acc.1 + (ahi - alo), acc.2)
      | (Tag.ins, _, _, blo, bhi) => (acc.1, acc.2 + (bhi - blo))
      | (Tag.eql, _, _, _, _) => acc)
    (0, 0)

end Difflib

/-!
Regex primitives for the cloaking comparator.  Each of the twelve regular
expressions the comparator uses (six IGNORE_PATTERNS for `re.sub`, six
SEO_ELEMENTS for `re.findall`, all compiled with IGNORECASE and, where
relevant, DOTALL) is compiled by hand into a matcher
`List Char → Option (List Char × List Char)` returning the matched text
(in original case) and the remainder after it.  Since the character class
`[^>]` cannot cross a `>` and the literals contain none, greedy/lazy
backtracking resolves to "up to the first `>`" and "up to the earliest
closing literal" respectively, which is what the matchers implement.
-/

/-- Case-insensitive literal match at the start of `s`: returns the consumed
prefix of `s` (original case) and the rest. -/
def ciStarts (pat : List Char) (s : List Char) : Option (List Char × List Char) :=
  match pat, s with
  | [], rest => some ([], rest)
  | _ :: _, [] => none
  | p :: ps, c :: cs =>
    if c.toLower = p.toLower then
      (ciStarts ps cs).map (fun pr => (c :: pr.1, pr.2))
    else none

/-- Lazy scan: consume up to and including the earliest case-insensitive
occurrence of `pat`, returning the consumed text and the rest
(the `.*?lit` / `[^x]*x` idiom). -/
def scanPast (pat : List Char) : List Char → Option (List Char × List Char)
  | [] => ciStarts pat []
  | c :: cs =>
    match ciStarts pat (c :: cs) with
    | some pr => some pr
    | none => (scanPast pat cs).map (fun pr => (c :: pr.1, pr.2))

/-- Split at the first `>`: the characters before it and the rest after it. -/
def splitAtGt : List Char → Option (List Char × List Char)
  | [] => none
  | c :: cs =>
    if c = '>' then some ([], cs)
    else (splitAtGt cs).map (fun pr => (c :: pr.1, pr.2))

/-- The regex character class `["\']`. -/
def quoteChar (c : Char) : Bool := c = '"' || c = Char.ofNat 39

/-- Matches `attr["\']word["\']` at the start of `s` (case-insensitive),
returning the rest after the closing quote. -/
def attrPat (attr word : List Char) (s : List Char) : Option (List Char) :=
  (ciStarts attr s).bind (fun pr1 =>
    match pr1.2 with
    | q1 :: r2 =>
      if quoteChar q1 then
        (ciStarts word r2).bind (fun pr2 =>
          match pr2.2 with
          | q2 :: r3 => if quoteChar q2 then some r3 else none
          | [] => none)
      else none
    | [] => none)

/-- Scan for the earliest position where `m` matches, returning `m`'s result
there. -/
def scanFor (m : List Char → Option (List Char)) : List Char → Option (List Char)
  | [] => m []
  | c :: cs =>
    match m (c :: cs) with
    | some r => some r
    | none => scanFor m cs

/-- Matcher for `<title[^>]*>.*?</title>` (IGNORECASE | DOTALL). -/
def matchTitleAt (s : List Char) : Option (List Char × List Char) := do
  let p1 ← ciStarts "<title".data s
  let p2 ← scanPast ">".data p1.2
  let p3 ← scanPast "</title>".data p2.2
  pure (p1.1 ++ p2.1 ++ p3.1, p3.2)

/-- Matcher for `<h1[^>]*>.*?</h1>` (IGNORECASE | DOTALL). -/
def matchH1At (s : List Char) : Option (List Char × List Char) := do
  let p1 ← ciStarts "<h1".data s
  let p2 ← scanPast ">".data p1.2
  let p3 ← scanPast "</h1>".data p2.2
  pure (p1.1 ++ p2.1 ++ p3.1, p3.2)

/-- Matcher for `<script[^>]*>.*?</script>` (IGNORECASE | DOTALL). -/
def matchScriptAt (s : List Char) : Option (List Char × List Char) := do
  let p1 ← ciStarts "<script".data s
  let p2 ← scanPast ">".data p1.2
  let p3 ← scanPast "</script>".data p2.2
  pure (p1.1 ++ p2.1 ++ p3.1, p3.2)

/-- Matcher for `<noscript[^>]*>.*?</noscript>` (IGNORECASE | DOTALL). -/
def matchNoscriptAt (s : List Char) : Option (List Char × List Char) := do
  let p1 ← ciStarts "<noscript".data s
  let p2 ← scanPast ">".data p1.2
  let p3 ← scanPast "</noscript>".data p2.2
  pure (p1.1 ++ p2.1 ++ p3.1, p3.2)

/-- Matcher for `<!--.*?-->` (IGNORECASE | DOTALL). -/
def matchCommentAt (s : List Char) : Option (List Char × List Char) := do
  let p1 ← ciStarts "<!--".data s
  let p2 ← scanPast "-->".data p1.2
  pure (p1.1 ++ p2.1, p2.2)

/-- Matcher for `<meta[^>]*name=["\']WORD["\'][^>]*>` (IGNORECASE): the match
runs from `<meta` to the first `>`, and is valid iff the span contains the
`name=["\']WORD["\']` attribute. -/
def matchMetaNameAt (word : List Char) (s : List Char) :
    Option (List Char × List Char) := do
  let p1 ← ciStarts "<meta".data s
  let p2 ← splitAtGt p1.2
  if (scanFor (attrPat "name=".data word) p2.1).isSome then
    pure (p1.1 ++ p2.1 ++ ['>'], p2.2)
  else none

/-- Matcher for `<link[^>]*rel=["\']WORD["\'][^>]*>` (IGNORECASE). -/
def matchLinkRelAt (word : List Char) (s : List Char) :
    Option (List Char × List Char) := do
  let p1 ← ciStarts "<link".data s
  let p2 ← splitAtGt p1.2
  if (scanFor (attrPat "rel=".data word) p2.1).isSome then
    pure (p1.1 ++ p2.1 ++ ['>'], p2.2)
  else none

/-- Matcher for `<link[^>]*rel=["\']alternate["\'][^>]*hreflang[^>]*>`
(IGNORECASE): valid iff the span up to the first `>` contains
`rel=["\']alternate["\']` followed somewhere after it by `hreflang`. -/
def matchLinkHreflangAt (s : List Char) : Option (List Char × List Char) := do
  let p1 ← ciStarts "<link".data s
  let p2 ← splitAtGt p1.2
  match scanFor (attrPat "rel=".data "alternate".data) p2.1 with
  | some afterRel =>
    if (scanFor (fun t => (ciStarts "hreflang".data t).map Prod.snd) afterRel).isSome then
      pure (p1.1 ++ p2.1 ++ ['>'], p2.2)
    else none
  | none => none

/-- The regex character class `[a-z-]` under IGNORECASE (ASCII letters or a
hyphen). -/
def dataNameChar (c : Char) : Bool :=
  ('a' ≤ c.toLower && c.toLower ≤ 'z') || c = '-'

/-- Matcher for `data-[a-z-]+="[^"]*"` (IGNORECASE). -/
def matchDataAttrAt (s : List Char) : Option (List Char × List Char) := do
  let p1 ← ciStarts "data-".data s
  let run := p1.2.takeWhile dataNameChar
  let r2 := p1.2.dropWhile dataNameChar
  if run = [] then none
  else
    match r2 with
    | c1 :: c2 :: r3 =>
      if c1 = '=' ∧ c2 = '"' then do
        let p4 ← scanPast "\"".data r3
        pure (p1.1 ++ run ++ [c1, c2] ++ p4.1, p4.2)
      else none
    | _ => none

/-- Matcher for `id="[^"]*"` (IGNORECASE). -/
def matchIdAttrAt (s : List Char) : Option (List Char × List Char) := do
  let p1 ← ciStarts "id=\"".data s
  let p2 ← scanPast "\"".data p1.2
  pure (p1.1 ++ p2.1, p2.2)

/-- Matcher for `class="[^"]*"` (IGNORECASE). -/
def matchClassAttrAt (s : List Char) : Option (List Char × List Char) := do
  let p1 ← ciStarts "class=\"".data s
  let p2 ← scanPast "\"".data p1.2
  pure (p1.1 ++ p2.1, p2.2)

/-- Model of `re.sub(pattern, '', s)`: delete every non-overlapping leftmost match.
Fuel-driven; every matcher consumes at least one character, so fuel
`s.length + 1` suffices. -/
def subAllDel (m : List Char → Option (List Char × List Char)) :
    Nat → List Char → List Char
  | 0, s => s
  | _ + 1, [] => []
  | n + 1, c :: cs =>
    match m (c :: cs) with
    | some pr => subAllDel m n pr.2
    | none => c :: subAllDel m n cs

/-- Model of `re.findall(pattern, s)`: all non-overlapping leftmost matches, in
order.  (None of the six SEO patterns contains a capture group, so
`findall` returns whole matches.) -/
def findAllAt (m : List Char → Option (List Char × List Char)) :
    Nat → List Char → List (List Char)
  | 0, _ => []
  | _ + 1, [] => []
  | n + 1, c :: cs =>
    match m (c :: cs) with
    | some pr => pr.1 :: findAllAt m n pr.2
    | none => findAllAt m n cs

namespace CloakingDetector

/-!
Model of `backend/services/cloaking.py` (`CloakingDetector`).  The detector
is parameterised by `strict` exactly as the Python constructor is; every
instance constructed in the repository uses the default `strict = False`.
The Python sets `bot_seo - user_seo` are modelled as duplicate-free filtered
lists; only membership, emptiness and size of these lists are meaningful
(Python set iteration order is not modelled).  The float comparison
`bot_only_lines > len(bot_lines) * 0.1` is modelled by the exact rational
comparison `len(bot_lines) < 10 * bot_only_lines`, which agrees with the
float evaluation for all feasible list sizes. -/

/-- Result record of `CloakingDetector.compare`. -/
structure CloakingResult where
  detected : Bool
  bot_only_lines : Nat
  user_only_lines : Nat
  bot_only_elements : List (List Char)
  user_only_elements : List (List Char)
deriving DecidableEq

/-- Model of `CloakingDetector._normalize_html`: in strict mode the text is returned
unchanged, otherwise the six IGNORE_PATTERNS are deleted in order, then
whitespace runs are collapsed and the result stripped. -/
def normalize_html (strict : Bool) (html : List Char) : List Char :=
  if strict then html
  else
    let sub := fun (m : List Char → Option (List Char × List Char))
      (s : List Char) => subAllDel m (s.length + 1) s
    let n1 := sub matchScriptAt html
    let n2 := sub matchCommentAt n1
    let n3 := sub matchNoscriptAt n2
    let n4 := sub matchDataAttrAt n3
    let n5 := sub matchIdAttrAt n4
    let n6 := sub matchClassAttrAt n5
    pyStrip (collapseWs n6)

/-- Model of `re.findall` of one SEO pattern over the raw document. -/
def findall (m : List Char → Option (List Char × List Char))
    (html : List Char) : List (List Char) :=
  findAllAt m (html.length + 1) html

/-- Model of `CloakingDetector._extract_seo_elements`: the concatenated `findall`
results of the six SEO_ELEMENTS patterns, in pattern order. -/
def extract_seo_elements (html : List Char) : List (List Char) :=
  findall matchTitleAt html
  ++ findall (matchMetaNameAt "description".data) html
  ++ findall (matchMetaNameAt "robots".data) html
  ++ findall (matchLinkRelAt "canonical".data) html
  ++ findall matchH1At html
  ++ findall matchLinkHreflangAt html

/-- Model of `CloakingDetector.compare`. -/
def compare (strict : Bool) (bot_html user_html : List Char) : CloakingResult :=
  let bot_normalized := normalize_html strict bot_html
  let user_normalized := normalize_html strict user_html
  let bot_lines := pySplitNl bot_normalized
  let user_lines := pySplitNl user_normalized
  let counts := Difflib.differ_counts user_lines bot_lines
  let bot_only_lines := counts.2
  let user_only_lines := counts.1
  let bot_seo := extract_seo_elements bot_html
  let user_seo := extract_seo_elements user_html
  let bot_only_elements := bot_seo.dedup.filter (fun e => decide (¬ e ∈ user_seo))
  let user_only_elements := user_seo.dedup.filter (fun e => decide (¬ e ∈ bot_seo))
  let detected :=
    decide (0 < bot_only_elements.length) ||
    decide (0 < user_only_elements.length) ||
    (decide (50 < bot_only_lines) && decide (bot_lines.length < 10 * bot_only_lines))
  { detected := detected
    bot_only_lines := bot_only_lines
    user_only_lines := user_only_lines
    bot_only_elements := bot_only_elements.take 10
    user_only_elements := user_only_elements.take 10 }

end CloakingDetector

namespace SmartFetcher

/-!
Model of `backend/services/fetcher.py` (`SmartFetcher`).  Adapter result
dicts are modelled by `RawResult` with `Option` fields for the keys that may
be absent (`.get(key, default)` becomes `Option.getD`).  The adapters
themselves perform network I/O, so their results — together with the
availability flags the cascade consults — are supplied by a `FetchEnv`
environment; the cascade logic of `SmartFetcher.fetch` (strategy order,
guards, acceptance conditions, result post-processing, exhaustion result)
is embedded faithfully.  `fetch` additionally returns the number of adapter
invocations performed (the instrumentation needed by the idempotence
claim); the first component is the dict Python returns. -/

/-- An adapter result dict (`{"success": ..., "html": ..., ...}`). -/
structure RawResult where
  success : Bool
  html : Option (List Char) := none
  status_code : Option Nat := none
  error : Option (List Char) := none
  url : Option (List Char) := none
  final_url : Option (List Char) := none
  strategy : Option (List Char) := none
  is_cloaked : Option Bool := none
deriving DecidableEq

/-- Environment of one `fetch` call: availability flags and the raw result
each adapter would produce for the requested URL. -/
structure FetchEnv where
  affiliate_fm_available : Bool
  affiliate_result : RawResult
  translate_result : RawResult
  zyte_available : Bool
  zyte_result : RawResult
  browser : Bool
  ua_result : RawResult
  stealth_result : RawResult
  flaresolverr_available : Bool
  flaresolverr_result : RawResult
  proxy_configured : Bool
  proxy_result : RawResult
deriving DecidableEq

/-- Python's substring test `pat in s` for strings. -/
def isSubstring (pat s : List Char) : Bool :=
  (List.range (s.length + 1)).any (fun i => pat.isPrefixOf (s.drop i))

/-- Model of `CLOUDFLARE_INDICATORS`. -/
def cloudflare_indicators : List (List Char) :=
  ["just a moment".data, "checking your browser".data, "please wait".data,
   "ddos protection".data, "ray id".data, "cf-browser-verification".data,
   "challenge-running".data, "_cf_chl".data, "cdn-cgi/challenge".data]

/-- Model of `SmartFetcher._is_cloudflare`. -/
def is_cloudflare (html : List Char) : Bool :=
  cloudflare_indicators.any (fun ind => isSubstring ind (pyLower html))

/-- The blocking page titles checked by `_is_blocked_response`. -/
def blocking_titles : List (List Char) :=
  ["<title>403 forbidden</title>".data, "<title>access denied</title>".data,
   "<title>blocked</title>".data, "<title>error</title>".data,
   "<title>just a moment</title>".data]

/-- Model of `SmartFetcher._is_blocked_response`: blocking status code, Cloudflare
signature, or blocking page title. -/
def is_blocked_response (result : RawResult) : Bool :=
  let html := result.html.getD []
  let status_code := result.status_code.getD 200
  if [403, 401, 503, 429].contains status_code then true
  else if is_cloudflare html then true
  else blocking_titles.any (fun t => isSubstring t (pyLower html))

/-- The exhaustion result of `fetch` (elapsed time not modelled). -/
def all_failed : RawResult :=
  { success := false, error := some "All fetch strategies failed".data }

/-- Strategy 0 block of `fetch` (Affiliate.fm API): guard, acceptance
condition and result post-processing. -/
def try_affiliate (env : FetchEnv) (url : List Char) (prefer_cloaked : Bool) :
    Option RawResult :=
  if prefer_cloaked && env.affiliate_fm_available then
    let result := env.affiliate_result
    if result.success then
      let html := result.html.getD []
      if !is_cloudflare html && !is_blocked_response result &&
          decide (500 < html.length) then
        some { result with final_url := some (result.url.getD url),
                           is_cloaked := some true }
      else none
    else none
  else none

/-- Strategy 1 block of `fetch` (Google Translate proxy). -/
def try_translate (env : FetchEnv) (skip_google_translate : Bool) :
    Option RawResult :=
  if !skip_google_translate then
    let result := env.translate_result
    if result.success then
      let html := result.html.getD []
      if !is_cloudflare html && !is_blocked_response result &&
          decide (500 < html.length) then
        some result
      else none
    else none
  else none

/-- Strategy 3 block of `fetch` (Zyte API).  Note: no
`_is_blocked_response` check, only the Cloudflare check and the length
floor. -/
def try_zyte (env : FetchEnv) (url : List Char) : Option RawResult :=
  if env.zyte_available then
    let result := env.zyte_result
    if result.success then
      let html := result.html.getD []
      if !is_cloudflare html && decide (500 < html.length) then
        some { result with final_url := some (result.url.getD url),
                           is_cloaked := some false }
      else none
    else none
  else none

/-- Strategy 4 block of `fetch` (direct Googlebot UA). -/
def try_ua (env : FetchEnv) : Option RawResult :=
  if env.browser then
    let result := env.ua_result
    if result.success && !is_blocked_response result then
      some { result with strategy := some "googlebot_direct".data }
    else none
  else none

/-- Strategy 5 block of `fetch` (Googlebot UA with stealth; inside the same
`if self.browser:` block as strategy 4). -/
def try_stealth (env : FetchEnv) : Option RawResult :=
  if env.browser then
    let result := env.stealth_result
    if result.success && !is_blocked_response result then
      some { result with strategy := some "googlebot_stealth".data }
    else none
  else none

/-- Strategy 6 block of `fetch` (FlareSolverr). -/
def try_flaresolverr (env : FetchEnv) : Option RawResult :=
  if env.flaresolverr_available then
    let result := env.flaresolverr_result
    if result.success && !is_blocked_response result then some result
    else none
  else none

/-- Strategy 7 block of `fetch` (proxy fallback).  Note: only the
Cloudflare check, no `_is_blocked_response`. -/
def try_proxy (env : FetchEnv) : Option RawResult :=
  if env.proxy_configured && env.browser then
    let result := env.proxy_result
    if result.success && !is_cloudflare (result.html.getD []) then
      some { result with strategy := some "proxy".data }
    else none
  else none

/-- Model of `SmartFetcher.fetch`: the strategy cascade (strategy 2, Rich Results
Test, is commented out in the source), returning the result dict and the
number of adapter invocations made. -/
def fetch (env : FetchEnv) (url : List Char)
    (skip_google_translate : Bool) (prefer_cloaked : Bool) : RawResult × Nat :=
  let c0 := if prefer_cloaked && env.affiliate_fm_available then 1 else 0
  match try_affiliate env url prefer_cloaked with
  | some r => (r, c0)
  | none =>
  let c1 := c0 + (if !skip_google_translate then 1 else 0)
  match try_translate env skip_google_translate with
  | some r => (r, c1)
  | none =>
  let c3 := c1 + (if env.zyte_available then 1 else 0)
  match try_zyte env url with
  | some r => (r, c3)
  | none =>
  let c4 := c3 + (if env.browser then 1 else 0)
  match try_ua env with
  | some r => (r, c4)
  | none =>
  let c5 := c4 + (if env.browser then 1 else 0)
  match try_stealth env with
  | some r => (r, c5)
  | none =>
  let c6 := c5 + (if env.flaresolverr_available then 1 else 0)
  match try_flaresolverr env with
  | some r => (r, c6)
  | none =>
  let c7 := c6 + (if env.proxy_configured && env.browser then 1 else 0)
  match try_proxy env with
  | some r => (r, c7)
  | none => (all_failed, c7)

end SmartFetcher

namespace HTMLCache

/-!
Model of `backend/services/cache.py` (`HTMLCache`).  The memory cache is the
dict `url_hash -> (html, timestamp)`; the optional Redis backend is a
key/value map together with per-call error flags (`getErr`/`setErr` say
whether the corresponding Redis call raises; the `try/except` blocks of the
source catch the error and fall through, which the model reflects by
total functions).  Timestamps (`time.time()` values and the TTL) are
modelled as integers — no claim depends on sub-second granularity.  The key
derivation `_hash_url` (a truncated SHA-256 hex digest) is abstracted as a
function parameter `hash`; every theorem below holds for an arbitrary such
function, hence in particular for the digest.  Redis-native expiry of
`setex` entries is not modelled (no claim depends on it). -/

/-- Dict lookup. -/
def dget {β : Type} (l : List (List Char × β)) (k : List Char) : Option β :=
  (l.find? (fun p => p.1 == k)).map Prod.snd

/-- Dict store (`d[k] = v`). -/
def dset {β : Type} (k : List Char) (v : β) (l : List (List Char × β)) :
    List (List Char × β) :=
  (k, v) :: l.filter (fun p => !(p.1 == k))

/-- Dict delete (`del d[k]`). -/
def ddel {β : Type} (k : List Char) (l : List (List Char × β)) :
    List (List Char × β) :=
  l.filter (fun p => !(p.1 == k))

/-- Cache configuration: TTL seconds and whether Redis is in use
(`self._use_redis and self._redis`). -/
structure CacheCfg where
  ttl : ℤ
  use_redis : Bool

/-- Cache state: the in-memory dict and the Redis store. -/
structure CacheState where
  mem : List (List Char × (List Char × ℤ))
  redis : List (List Char × List Char)
deriving DecidableEq

/-- Model of `HTMLCache.get`: Redis first (errors and empty values fall through),
then the memory cache with lazy TTL expiry (the expired entry is deleted). -/
def get (cfg : CacheCfg) (hash : List Char → List Char) (st : CacheState)
    (url : List Char) (now : ℤ) (getErr : Bool) :
    Option (List Char) × CacheState :=
  let key := hash url
  let fromRedis : Option (List Char) :=
    if cfg.use_redis && !getErr then
      match dget st.redis ("seo:html:".data ++ key) with
      | some html => if html ≠ [] then some html else none
      | none => none
    else none
  match fromRedis with
  | some html => (some html, st)
  | none =>
    match dget st.mem key with
    | some (html, timestamp) =>
      if now - timestamp < cfg.ttl then (some html, st)
      else (none, { st with mem := ddel key st.mem })
    | none => (none, st)

/-- Model of `HTMLCache.set`: `setex` into Redis when configured (errors are caught),
then always store into the memory dict. -/
def set (cfg : CacheCfg) (hash : List Char → List Char) (st : CacheState)
    (url html : List Char) (now : ℤ) (setErr : Bool) : CacheState :=
  let key := hash url
  let st1 :=
    if cfg.use_redis && !setErr then
      { st with redis := dset ("seo:html:".data ++ key) html st.redis }
    else st
  { st1 with mem := dset key (html, now) st1.mem }

end HTMLCache

namespace Analyze

/-!
Model of the acquisition part of `_analyze` in
`backend/api/routes/analyze.py` (the cache lookup, the Googlebot fetch, the
cache write and the response fields derived from them; SEO parsing,
DataForSEO, Wayback and the optional user-side fetch consume the acquired
HTML downstream and are outside this model). -/

/-- The acquisition-relevant fields of the `AnalyzeResponse`, plus the
number of adapter invocations that the request performed. -/
structure AcquireOutcome where
  success : Bool
  html : List Char
  error : Option (List Char)
  strategy : Option (List Char)
  cached : Bool
  adapter_calls : Nat
deriving DecidableEq

/-- The `_analyze` acquisition: cache lookup (a truthy hit short-circuits),
otherwise `fetch` with default flags, caching the HTML on success.  Returns
the outcome and the updated cache state. -/
def analyze_acquire (cfg : HTMLCache.CacheCfg) (hash : List Char → List Char)
    (fenv : SmartFetcher.FetchEnv) (st : HTMLCache.CacheState)
    (url : List Char) (now : ℤ) (getErr setErr : Bool) :
    AcquireOutcome × HTMLCache.CacheState :=
  let g := HTMLCache.get cfg hash st url now getErr
  let cached_html := g.1
  let st1 := g.2
  if cached_html.getD [] ≠ [] then
    ({ success := true, html := cached_html.getD [], error := none,
       strategy := some "cached".data, cached := true, adapter_calls := 0 }, st1)
  else
    let f := SmartFetcher.fetch fenv url false true
    let bot_result := f.1
    let st2 :=
      if bot_result.success then
        HTMLCache.set cfg hash st1 url (bot_result.html.getD []) now setErr
      else st1
    if bot_result.success then
      ({ success := true, html := bot_result.html.getD [], error := none,
         strategy := bot_result.strategy,
         cached := decide (cached_html ≠ none), adapter_calls := f.2 }, st2)
    else
      ({ success := false, html := [],
         error := some (bot_result.error.getD "Failed to fetch".data),
         strategy := none, cached := false, adapter_calls := f.2 }, st2)

end Analyze

namespace SmartFetcher

theorem not_blocked_not_cloudflare {result : RawResult}
    (h : is_blocked_response result = false) :
    is_cloudflare (result.html.getD []) = false := by
  simp only [is_blocked_response] at h
  split at h
  · exact absurd h (by simp)
  · split at h
    · exact absurd h (by simp)
    · rename_i hcf
      simpa using hcf

theorem try_affiliate_some {env : FetchEnv} {url : List Char} {pc : Bool}
    {r : RawResult} (h : try_affiliate env url pc = some r) :
    r.success = true ∧ is_cloudflare (r.html.getD []) = false ∧
      500 < (r.html.getD []).length := by
  simp only [try_affiliate] at h
  split at h
  · split at h
    · split at h
      · rename_i hsucc hcond
        rw [Bool.and_eq_true, Bool.and_eq_true] at hcond
        obtain ⟨⟨hcf, _⟩, hlen⟩ := hcond
        obtain rfl := Option.some.inj h
        refine ⟨hsucc, ?_, by simpa using hlen⟩
        simpa using hcf
      · exact absurd h (by simp)
    · exact absurd h (by simp)
  · exact absurd h (by simp)

theorem try_translate_some {env : FetchEnv} {sgt : Bool}
    {r : RawResult} (h : try_translate env sgt = some r) :
    r.success = true ∧ is_cloudflare (r.html.getD []) = false ∧
      500 < (r.html.getD []).length := by
  simp only [try_translate] at h
  split at h
  · split at h
    · split at h
      · rename_i hsucc hcond
        rw [Bool.and_eq_true, Bool.and_eq_true] at hcond
        obtain ⟨⟨hcf, _⟩, hlen⟩ := hcond
        obtain rfl := Option.some.inj h
        refine ⟨hsucc, ?_, by simpa using hlen⟩
        simpa using hcf
      · exact absurd h (by simp)
    · exact absurd h (by simp)
  · exact absurd h (by simp)

theorem try_zyte_some {env : FetchEnv} {url : List Char}
    {r : RawResult} (h : try_zyte env url = some r) :
    r.success = true ∧ is_cloudflare (r.html.getD []) = false ∧
      500 < (r.html.getD []).length := by
  simp only [try_zyte] at h
  split at h
  · split at h
    · split at h
      · rename_i hsucc hcond
        rw [Bool.and_eq_true] at hcond
        obtain ⟨hcf, hlen⟩ := hcond
        obtain rfl := Option.some.inj h
        refine ⟨hsucc, ?_, by simpa using hlen⟩
        simpa using hcf
      · exact absurd h (by simp)
    · exact absurd h (by simp)
  · exact absurd h (by simp)

theorem try_ua_some {env : FetchEnv} {r : RawResult}
    (h : try_ua env = some r) :
    r.success = true ∧ is_cloudflare (r.html.getD []) = false ∧
      r = { env.ua_result with strategy := some "googlebot_direct".data } := by
  simp only [try_ua] at h
  split at h
  · split at h
    · rename_i hcond
      rw [Bool.and_eq_true] at hcond
      obtain ⟨hsucc, hblk⟩ := hcond
      obtain rfl := Option.some.inj h
      refine ⟨hsucc, ?_, rfl⟩
      have := not_blocked_not_cloudflare
        (show is_blocked_response env.ua_result = false by simpa using hblk)
      simpa using this
    · exact absurd h (by simp)
  · exact absurd h (by simp)

theorem try_stealth_some {env : FetchEnv} {r : RawResult}
    (h : try_stealth env = some r) :
    r.success = true ∧ is_cloudflare (r.html.getD []) = false ∧
      r = { env.stealth_result with strategy := some "googlebot_stealth".data } := by
  simp only [try_stealth] at h
  split at h
  · split at h
    · rename_i hcond
      rw [Bool.and_eq_true] at hcond
      obtain ⟨hsucc, hblk⟩ := hcond
      obtain rfl := Option.some.inj h
      refine ⟨hsucc, ?_, rfl⟩
      have := not_blocked_not_cloudflare
        (show is_blocked_response env.stealth_result = false by simpa using hblk)
      simpa using this
    · exact absurd h (by simp)
  · exact absurd h (by simp)

theorem try_flaresolverr_some {env : FetchEnv} {r : RawResult}
    (h : try_flaresolverr env = some r) :
    r.success = true ∧ is_cloudflare (r.html.getD []) = false ∧
      r = env.flaresolverr_result := by
  simp only [try_flaresolverr] at h
  split at h
  · split at h
    · rename_i hcond
      rw [Bool.and_eq_true] at hcond
      obtain ⟨hsucc, hblk⟩ := hcond
      obtain rfl := Option.some.inj h
      exact ⟨hsucc, not_blocked_not_cloudflare (by simpa using hblk), rfl⟩
    · exact absurd h (by simp)
  · exact absurd h (by simp)

theorem try_proxy_some {env : FetchEnv} {r : RawResult}
    (h : try_proxy env = some r) :
    r.success = true ∧ is_cloudflare (r.html.getD []) = false ∧
      r = { env.proxy_result with strategy := some "proxy".data } := by
  simp only [try_proxy] at h
  split at h
  · split at h
    · rename_i hcond
      rw [Bool.and_eq_true] at hcond
      obtain ⟨hsucc, hcf⟩ := hcond
      obtain rfl := Option.some.inj h
      refine ⟨hsucc, ?_, rfl⟩
      simpa using hcf
    · exact absurd h (by simp)
  · exact absurd h (by simp)

end SmartFetcher

namespace SmartFetcher

theorem fetch_result_cases (env : FetchEnv) (url : List Char) (sgt pc : Bool) :
    (fetch env url sgt pc).1 = all_failed ∨
    ∃ r, (fetch env url sgt pc).1 = r ∧
      (try_affiliate env url pc = some r ∨ try_translate env sgt = some r ∨
       try_zyte env url = some r ∨ try_ua env = some r ∨
       try_stealth env = some r ∨ try_flaresolverr env = some r ∨
       try_proxy env = some r) := by
  simp only [fetch]
  rcases h0 : try_affiliate env url pc with _ | r
  on_goal 2 => exact Or.inr ⟨r, rfl, Or.inl rfl⟩
  rcases h1 : try_translate env sgt with _ | r
  on_goal 2 => exact Or.inr ⟨r, rfl, Or.inr (Or.inl rfl)⟩
  rcases h3 : try_zyte env url with _ | r
  on_goal 2 => exact Or.inr ⟨r, rfl, Or.inr (Or.inr (Or.inl rfl))⟩
  rcases h4 : try_ua env with _ | r
  on_goal 2 => exact Or.inr ⟨r, rfl, Or.inr (Or.inr (Or.inr (Or.inl rfl)))⟩
  rcases h5 : try_stealth env with _ | r
  on_goal 2 =>
    exact Or.inr ⟨r, rfl, Or.inr (Or.inr (Or.inr (Or.inr (Or.inl rfl))))⟩
  rcases h6 : try_flaresolverr env with _ | r
  on_goal 2 =>
    exact Or.inr ⟨r, rfl, Or.inr (Or.inr (Or.inr (Or.inr (Or.inr (Or.inl rfl)))))⟩
  rcases h7 : try_proxy env with _ | r
  on_goal 2 =>
    exact Or.inr ⟨r, rfl, Or.inr (Or.inr (Or.inr (Or.inr (Or.inr (Or.inr rfl)))))⟩
  exact Or.inl rfl

end SmartFetcher

namespace SmartFetcher

/-- A generic failed adapter result used by the concrete environments. -/
def fail_result : RawResult := { success := false, error := some "boom".data }

/-- A failed Google Translate result, with the error message
`_fetch_google_translate` produces on exhaustion of its methods. -/
def translate_fail : RawResult :=
  { success := false, error := some "Google Translate proxy failed".data }

/-- Environment in which only the browser is available and the direct
Googlebot-UA fetch returns a tiny but well-formed page with status 200. -/
def envC1 : FetchEnv :=
  { affiliate_fm_available := false, affiliate_result := fail_result,
    translate_result := translate_fail,
    zyte_available := false, zyte_result := fail_result,
    browser := true,
    ua_result := { success := true,
                   html := some "<html><head></head><body></body></html>".data,
                   status_code := some 200 },
    stealth_result := fail_result,
    flaresolverr_available := false, flaresolverr_result := fail_result,
    proxy_configured := false, proxy_result := fail_result }

/-- Environment in which Zyte is available and returns `success` with a
benign 600-character body but HTTP status 403. -/
def envC5 : FetchEnv :=
  { affiliate_fm_available := false, affiliate_result := fail_result,
    translate_result := translate_fail,
    zyte_available := true,
    zyte_result := { success := true, html := some (List.replicate 600 'a'),
                     status_code := some 403,
                     url := some "https://target.example/".data,
                     strategy := some "zyte".data },
    browser := false, ua_result := fail_result, stealth_result := fail_result,
    flaresolverr_available := false, flaresolverr_result := fail_result,
    proxy_configured := false, proxy_result := fail_result }

/-- Environment in which every attempted adapter fails; the last attempted
adapter (stealth Googlebot UA) fails with error message "boom". -/
def envC6 : FetchEnv :=
  { affiliate_fm_available := false, affiliate_result := fail_result,
    translate_result := translate_fail,
    zyte_available := false, zyte_result := fail_result,
    browser := true, ua_result := fail_result, stealth_result := fail_result,
    flaresolverr_available := false, flaresolverr_result := fail_result,
    proxy_configured := false, proxy_result := fail_result }

end SmartFetcher

open SmartFetcher in
/-- C1 (counterexample): the claim that every success outcome carries HTML
at or above the minimum-length threshold fails: with only the browser
available, a direct Googlebot-UA result with a 39-character body and status
200 passes the block classifier and is returned as a success, below every
length threshold in the engine (500 for the strategies that do check). -/
theorem fetch_success_below_threshold :
    (fetch envC1 "https://example.com/".data false true).1.success = true ∧
    ((fetch envC1 "https://example.com/".data false true).1.html.getD []).length = 39 ∧
    ((fetch envC1 "https://example.com/".data false true).1.html.getD []).length < 500 := by
  decide

open SmartFetcher in
/-- C1 (amended): a success outcome either carries HTML longer than 500
characters (affiliate.fm, Google Translate and Zyte acceptances all check
this) or is the unmodified result of one of the browser, FlareSolverr or
proxy strategies, which impose no length floor at all. -/
theorem fetch_success_html_length (env : FetchEnv) (url : List Char)
    (sgt pc : Bool) (h : (fetch env url sgt pc).1.success = true) :
    500 < ((fetch env url sgt pc).1.html.getD []).length ∨
    (fetch env url sgt pc).1 =
      { env.ua_result with strategy := some "googlebot_direct".data } ∨
    (fetch env url sgt pc).1 =
      { env.stealth_result with strategy := some "googlebot_stealth".data } ∨
    (fetch env url sgt pc).1 = env.flaresolverr_result ∨
    (fetch env url sgt pc).1 =
      { env.proxy_result with strategy := some "proxy".data } := by
  rcases fetch_result_cases env url sgt pc with hf | ⟨r, hr, hc⟩
  · rw [hf] at h
    exact absurd h (by simp [all_failed])
  · rw [hr]
    rcases hc with hc | hc | hc | hc | hc | hc | hc
    · exact Or.inl ((try_affiliate_some hc).2.2)
    · exact Or.inl ((try_translate_some hc).2.2)
    · exact Or.inl ((try_zyte_some hc).2.2)
    · exact Or.inr (Or.inl (try_ua_some hc).2.2)
    · exact Or.inr (Or.inr (Or.inl (try_stealth_some hc).2.2))
    · exact Or.inr (Or.inr (Or.inr (Or.inl (try_flaresolverr_some hc).2.2)))
    · exact Or.inr (Or.inr (Or.inr (Or.inr (try_proxy_some hc).2.2)))

open SmartFetcher in
/-- Witness for the amended C1 theorem at a concrete environment. -/
theorem fetch_success_html_length_witness :
    (fetch envC1 "https://example.com/".data false true).1.success = true ∧
    (500 < ((fetch envC1 "https://example.com/".data false true).1.html.getD []).length ∨
    (fetch envC1 "https://example.com/".data false true).1 =
      { envC1.ua_result with strategy := some "googlebot_direct".data } ∨
    (fetch envC1 "https://example.com/".data false true).1 =
      { envC1.stealth_result with strategy := some "googlebot_stealth".data } ∨
    (fetch envC1 "https://example.com/".data false true).1 = envC1.flaresolverr_result ∨
    (fetch envC1 "https://example.com/".data false true).1 =
      { envC1.proxy_result with strategy := some "proxy".data }) :=
  ⟨by decide,
   fetch_success_html_length envC1 "https://example.com/".data false true (by decide)⟩

open SmartFetcher in
/-- C3: the block classifier reports a block whenever the raw result's
status code is 401, 403, 429 or 503, regardless of the body. -/
theorem blocked_status_forces_blocked (r : RawResult) (s : Nat)
    (h1 : r.status_code = some s)
    (h2 : s = 401 ∨ s = 403 ∨ s = 429 ∨ s = 503) :
    is_blocked_response r = true := by
  simp only [is_blocked_response, h1, Option.getD_some]
  rcases h2 with h | h | h | h <;> subst h <;> simp

open SmartFetcher in
/-- Witness for C3: a 403 result with perfectly ordinary body text is
classified as blocked. -/
theorem blocked_status_forces_blocked_witness :
    (({ success := true, html := some "a plain ordinary page".data,
        status_code := some 403 } : RawResult).status_code = some 403 ∧
      ((403 : Nat) = 401 ∨ (403 : Nat) = 403 ∨ (403 : Nat) = 429 ∨ (403 : Nat) = 503)) ∧
    is_blocked_response
      { success := true, html := some "a plain ordinary page".data,
        status_code := some 403 } = true :=
  ⟨⟨rfl, by decide⟩,
   blocked_status_forces_blocked
     { success := true, html := some "a plain ordinary page".data,
       status_code := some 403 } 403 rfl (by decide)⟩

open SmartFetcher in
/-- C5 (counterexample): the Zyte acceptance path does not consult the
shared block classifier: a Zyte result with target status 403 and a benign
600-character body is accepted and returned as the engine's success, even
though `_is_blocked_response` classifies that very outcome as blocked. -/
theorem zyte_blocked_status_accepted :
    (fetch envC5 "https://target.example/".data false true).1.success = true ∧
    (fetch envC5 "https://target.example/".data false true).1.status_code = some 403 ∧
    is_blocked_response (fetch envC5 "https://target.example/".data false true).1 = true := by
  decide

open SmartFetcher in
/-- C5 (amended): the one classification check every strategy does share is
the Cloudflare-signature scan: any success outcome's HTML is free of all
Cloudflare indicators.  (The status-code and blocking-title checks of the
shared classifier are skipped by the Zyte and proxy strategies.) -/
theorem fetch_success_not_cloudflare (env : FetchEnv) (url : List Char)
    (sgt pc : Bool) (h : (fetch env url sgt pc).1.success = true) :
    is_cloudflare ((fetch env url sgt pc).1.html.getD []) = false := by
  rcases fetch_result_cases env url sgt pc with hf | ⟨r, hr, hc⟩
  · rw [hf] at h
    exact absurd h (by simp [all_failed])
  · rw [hr]
    rcases hc with hc | hc | hc | hc | hc | hc | hc
    · exact (try_affiliate_some hc).2.1
    · exact (try_translate_some hc).2.1
    · exact (try_zyte_some hc).2.1
    · exact (try_ua_some hc).2.1
    · exact (try_stealth_some hc).2.1
    · exact (try_flaresolverr_some hc).2.1
    · exact (try_proxy_some hc).2.1

open SmartFetcher in
/-- Witness for the amended C5 theorem at a concrete environment. -/
theorem fetch_success_not_cloudflare_witness :
    (fetch envC5 "https://target.example/".data false true).1.success = true ∧
    is_cloudflare
      ((fetch envC5 "https://target.example/".data false true).1.html.getD []) = false :=
  ⟨by decide,
   fetch_success_not_cloudflare envC5 "https://target.example/".data false true (by decide)⟩

open SmartFetcher in
/-- C6 (counterexample): on exhaustion the engine does not surface the last
adapter's error message: with both browser strategies failing with message
"boom" as the last attempted adapters, the terminal outcome carries the
fixed message "All fetch strategies failed" instead. -/
theorem exhaution_ignores_last_error :
    (fetch envC6 "https://example.com/".data false true).1.success = false ∧
    envC6.stealth_result.error = some "boom".data ∧
    (fetch envC6 "https://example.com/".data false true).1.error ≠ some "boom".data := by
  decide

open SmartFetcher in
/-- C6 (amended): on exhaustion of all strategies the engine returns a
terminal failure whose error message is the constant
"All fetch strategies failed" (and no HTML), regardless of the adapters'
own error messages. -/
theorem fetch_failure_constant_error (env : FetchEnv) (url : List Char)
    (sgt pc : Bool) (h : (fetch env url sgt pc).1.success = false) :
    (fetch env url sgt pc).1.error = some "All fetch strategies failed".data ∧
    (fetch env url sgt pc).1.html = none := by
  rcases fetch_result_cases env url sgt pc with hf | ⟨r, hr, hc⟩
  · rw [hf]
    exact ⟨rfl, rfl⟩
  · rw [hr] at h
    have hs : r.success = true := by
      rcases hc with hc | hc | hc | hc | hc | hc | hc
      · exact (try_affiliate_some hc).1
      · exact (try_translate_some hc).1
      · exact (try_zyte_some hc).1
      · exact (try_ua_some hc).1
      · exact (try_stealth_some hc).1
      · exact (try_flaresolverr_some hc).1
      · exact (try_proxy_some hc).1
    rw [hs] at h
    exact absurd h (by simp)

open SmartFetcher in
/-- Witness for the amended C6 theorem at a concrete environment. -/
theorem fetch_failure_constant_error_witness :
    (fetch envC6 "https://example.com/".data false true).1.success = false ∧
    ((fetch envC6 "https://example.com/".data false true).1.error =
      some "All fetch strategies failed".data ∧
    (fetch envC6 "https://example.com/".data false true).1.html = none) :=
  ⟨by decide,
   fetch_failure_constant_error envC6 "https://example.com/".data false true (by decide)⟩

theorem dget_dset {β : Type} (k : List Char) (v : β)
    (l : List (List Char × β)) :
    HTMLCache.dget (HTMLCache.dset k v l) k = some v := by
  simp [HTMLCache.dget, HTMLCache.dset, List.find?]

/-- C7: a Redis backend error during `get` or `set` is caught and behaves
exactly as a miss: an erroring `get` is identical to a get against the
memory-only configuration, an erroring `set` still records the entry in the
memory store (and leaves Redis untouched), and a whole acquisition run in
which both backend calls error is identical to one against the memory-only
configuration — so a backend error can never fail an acquisition.  (That no
error propagates at all is reflected by the operations being total.) -/
theorem cache_backend_error_is_miss (cfg : HTMLCache.CacheCfg)
    (hash : List Char → List Char) (st : HTMLCache.CacheState)
    (url html : List Char) (now : ℤ) (fenv : SmartFetcher.FetchEnv) :
    HTMLCache.get cfg hash st url now true =
      HTMLCache.get { cfg with use_redis := false } hash st url now false ∧
    HTMLCache.set cfg hash st url html now true =
      { st with mem := HTMLCache.dset (hash url) (html, now) st.mem } ∧
    Analyze.analyze_acquire cfg hash fenv st url now true true =
      Analyze.analyze_acquire { cfg with use_redis := false } hash fenv st url
        now false false := by
  refine ⟨?_, ?_, ?_⟩
  · simp [HTMLCache.get]
  · simp [HTMLCache.set]
  · simp [Analyze.analyze_acquire, HTMLCache.get, HTMLCache.set]

namespace SmartFetcher

/-- Environment in which only FlareSolverr is available and it returns a
success with an empty response body (passing the classifier, as an empty
body matches no block signature and carries status 200). -/
def fenvC2 : FetchEnv :=
  { affiliate_fm_available := false, affiliate_result := fail_result,
    translate_result := translate_fail,
    zyte_available := false, zyte_result := fail_result,
    browser := false, ua_result := fail_result, stealth_result := fail_result,
    flaresolverr_available := true,
    flaresolverr_result := { success := true, html := some [],
                             status_code := some 200,
                             strategy := some "flaresolverr".data },
    proxy_configured := false, proxy_result := fail_result }

end SmartFetcher

/-- Memory-only cache configuration with the default TTL (3600 s). -/
@[reducible] def cfgC2 : HTMLCache.CacheCfg := { ttl := 3600, use_redis := false }

open SmartFetcher in
/-- C2 (counterexample): a first acquisition that succeeds with empty HTML
(FlareSolverr returning an empty solution body) is cached, but the cached
empty string is falsy, so a second acquisition one second later — well
within the TTL — runs the full adapter cascade again (2 adapter
invocations, not 0). -/
theorem second_acquire_refetches_empty_html :
    (Analyze.analyze_acquire cfgC2 id fenvC2 ⟨[], []⟩
        "https://example.com/".data 0 false false).1.success = true ∧
    (1 : ℤ) - 0 < cfgC2.ttl ∧
    (Analyze.analyze_acquire cfgC2 id fenvC2
        (Analyze.analyze_acquire cfgC2 id fenvC2 ⟨[], []⟩
          "https://example.com/".data 0 false false).2
        "https://example.com/".data 1 false false).1.adapter_calls = 2 ∧
    (Analyze.analyze_acquire cfgC2 id fenvC2
        (Analyze.analyze_acquire cfgC2 id fenvC2 ⟨[], []⟩
          "https://example.com/".data 0 false false).2
        "https://example.com/".data 1 false false).1.adapter_calls ≠ 0 := by
  decide


theorem memget_after_memset (cfg : HTMLCache.CacheCfg)
    (hash : List Char → List Char) (st0 : HTMLCache.CacheState)
    (url html : List Char) (t1 t2 : ℤ) (s1 g2 : Bool)
    (hredis : cfg.use_redis = false) (httl : t2 - t1 < cfg.ttl) :
    HTMLCache.get cfg hash (HTMLCache.set cfg hash st0 url html t1 s1) url t2 g2 =
      (some html, HTMLCache.set cfg hash st0 url html t1 s1) := by
  simp [HTMLCache.get, HTMLCache.set, hredis, dget_dset, httl]


/-- C2 (amended): if the first acquisition misses the cache and then
succeeds with non-empty HTML, a second acquisition for the same URL within
the TTL (measured from the first call; memory-backed configuration) returns
the identical HTML, performs zero adapter invocations and reports
`cached = true`. -/
theorem acquire_idempotent_within_ttl (cfg : HTMLCache.CacheCfg)
    (hash : List Char → List Char) (fenv1 fenv2 : SmartFetcher.FetchEnv)
    (st0 : HTMLCache.CacheState) (url : List Char) (t1 t2 : ℤ)
    (g1 s1 g2 s2 : Bool)
    (hredis : cfg.use_redis = false)
    (hmiss : HTMLCache.dget st0.mem (hash url) = none)
    (hsucc : (Analyze.analyze_acquire cfg hash fenv1 st0 url t1 g1 s1).1.success = true)
    (hne : (Analyze.analyze_acquire cfg hash fenv1 st0 url t1 g1 s1).1.html ≠ [])
    (httl : t2 - t1 < cfg.ttl) :
    (Analyze.analyze_acquire cfg hash fenv2
        (Analyze.analyze_acquire cfg hash fenv1 st0 url t1 g1 s1).2
        url t2 g2 s2).1.success = true ∧
    (Analyze.analyze_acquire cfg hash fenv2
        (Analyze.analyze_acquire cfg hash fenv1 st0 url t1 g1 s1).2
        url t2 g2 s2).1.html =
      (Analyze.analyze_acquire cfg hash fenv1 st0 url t1 g1 s1).1.html ∧
    (Analyze.analyze_acquire cfg hash fenv2
        (Analyze.analyze_acquire cfg hash fenv1 st0 url t1 g1 s1).2
        url t2 g2 s2).1.adapter_calls = 0 ∧
    (Analyze.analyze_acquire cfg hash fenv2
        (Analyze.analyze_acquire cfg hash fenv1 st0 url t1 g1 s1).2
        url t2 g2 s2).1.cached = true := by
  have hget1 : HTMLCache.get cfg hash st0 url t1 g1 = (none, st0) := by
    simp [HTMLCache.get, hredis, hmiss]
  simp only [Analyze.analyze_acquire, hget1, Option.getD_none, ne_eq,
    not_true_eq_false, if_false, reduceIte] at hsucc hne ⊢
  by_cases hbs : (SmartFetcher.fetch fenv1 url false true).1.success = true
  · simp only [hbs, reduceIte] at hsucc hne ⊢
    rw [memget_after_memset cfg hash st0 url _ t1 t2 s1 g2 hredis httl]
    simp only [Option.getD_some]
    rw [if_pos hne]
    exact ⟨rfl, rfl, rfl, rfl⟩
  · simp only [Bool.not_eq_true] at hbs
    simp only [hbs, Bool.false_eq_true, reduceIte] at hsucc

namespace SmartFetcher

/-- Environment for the C2 witness: FlareSolverr alone is available and
returns a success with a short non-empty body. -/
def fenvC2W : FetchEnv :=
  { affiliate_fm_available := false, affiliate_result := fail_result,
    translate_result := translate_fail,
    zyte_available := false, zyte_result := fail_result,
    browser := false, ua_result := fail_result, stealth_result := fail_result,
    flaresolverr_available := true,
    flaresolverr_result := { success := true, html := some "<html>ok</html>".data,
                             status_code := some 200,
                             strategy := some "flaresolverr".data },
    proxy_configured := false, proxy_result := fail_result }

end SmartFetcher

open SmartFetcher in
/-- Witness for the amended C2 theorem at a concrete environment. -/
theorem acquire_idempotent_within_ttl_witness :
    (Analyze.analyze_acquire cfgC2 id fenvC2W
        (Analyze.analyze_acquire cfgC2 id fenvC2W ⟨[], []⟩
          "https://example.com/".data 0 false false).2
        "https://example.com/".data 1 false false).1.success = true ∧
    (Analyze.analyze_acquire cfgC2 id fenvC2W
        (Analyze.analyze_acquire cfgC2 id fenvC2W ⟨[], []⟩
          "https://example.com/".data 0 false false).2
        "https://example.com/".data 1 false false).1.html =
      (Analyze.analyze_acquire cfgC2 id fenvC2W ⟨[], []⟩
          "https://example.com/".data 0 false false).1.html ∧
    (Analyze.analyze_acquire cfgC2 id fenvC2W
        (Analyze.analyze_acquire cfgC2 id fenvC2W ⟨[], []⟩
          "https://example.com/".data 0 false false).2
        "https://example.com/".data 1 false false).1.adapter_calls = 0 ∧
    (Analyze.analyze_acquire cfgC2 id fenvC2W
        (Analyze.analyze_acquire cfgC2 id fenvC2W ⟨[], []⟩
          "https://example.com/".data 0 false false).2
        "https://example.com/".data 1 false false).1.cached = true :=
  acquire_idempotent_within_ttl cfgC2 id fenvC2W fenvC2W ⟨[], []⟩
    "https://example.com/".data 0 1 false false false false
    (by decide) (by decide) (by decide) (by decide) (by decide)

namespace Difflib

theorem range_one_eq : List.range 1 = [0] := rfl

theorem elemPositions_single (x y : List Char) :
    elemPositions [y] x = if x = y then [0] else [] := by
  by_cases h : x = y
  · subst h; simp [elemPositions, range_one_eq]
  · simp only [elemPositions, List.length_singleton, range_one_eq]
    rw [if_neg h]
    have hd : decide (y = x) = false := decide_eq_false (fun h2 => h h2.symm)
    simp [List.filter, hd]

theorem b2jGet_line_single (x y : List Char) :
    b2jGet lineJunk true [y] x = if x = y then [0] else [] := by
  simp [b2jGet, lineJunk, elemPositions_single]

theorem flmDp_line_single (x y : List Char) :
    flmDp lineJunk true [x] [y] 0 1 0 1 = if x = y then (0, 0, 1) else (0, 0, 0) := by
  simp only [flmDp, Nat.sub_zero, range_one_eq, List.map_cons, List.map_nil,
    Nat.add_zero, List.foldl_cons, List.foldl_nil, List.getD_cons_zero,
    b2jGet_line_single]
  by_cases h : x = y
  · rw [if_pos h, if_pos h]
    rfl
  · rw [if_neg h, if_neg h]
    rfl

theorem whileN_stop {σ : Type} (n : Nat) (c : σ → Bool) (f : σ → σ)
    (s : σ) (h : c s = false) : whileN n c f s = s := by
  cases n <;> simp [whileN, h]

theorem flm_line_eq (x : List Char) :
    find_longest_match lineJunk true [x] [x] 0 1 0 1 = (0, 0, 1) := by
  have hd : flmDp lineJunk true [x] [x] 0 1 0 1 = (0, 0, 1) := by
    rw [flmDp_line_single, if_pos rfl]
  simp only [find_longest_match, hd]
  rfl

set_option maxHeartbeats 1000000 in
theorem flm_line_ne (x y : List Char) (h : ¬ x = y) :
    find_longest_match lineJunk true [x] [y] 0 1 0 1 = (0, 0, 0) := by
  have hd : flmDp lineJunk true [x] [y] 0 1 0 1 = (0, 0, 0) := by
    rw [flmDp_line_single, if_neg h]
  simp only [find_longest_match, hd]
  simp [whileN, lineJunk, h]

theorem raw_blocks_line_eq (x : List Char) :
    raw_blocks lineJunk true [x] [x] 3 0 1 0 1 = [(0, 0, 1)] := by
  rw [raw_blocks]
  simp only [flm_line_eq]
  rfl

theorem raw_blocks_line_ne (x y : List Char) (h : ¬ x = y) :
    raw_blocks lineJunk true [x] [y] 3 0 1 0 1 = [] := by
  rw [raw_blocks]
  simp only [flm_line_ne x y h]
  rfl

theorem blocks_line_eq (x : List Char) :
    get_matching_blocks lineJunk true [x] [x] = [(0, 0, 1), (1, 1, 0)] := by
  have h0 : get_matching_blocks lineJunk true [x] [x] =
      merge_blocks (0, 0, 0) (raw_blocks lineJunk true [x] [x] 3 0 1 0 1)
        ++ [(1, 1, 0)] := rfl
  rw [h0, raw_blocks_line_eq]
  rfl

theorem blocks_line_ne (x y : List Char) (h : ¬ x = y) :
    get_matching_blocks lineJunk true [x] [y] = [(1, 1, 0)] := by
  have h0 : get_matching_blocks lineJunk true [x] [y] =
      merge_blocks (0, 0, 0) (raw_blocks lineJunk true [x] [y] 3 0 1 0 1)
        ++ [(1, 1, 0)] := rfl
  rw [h0, raw_blocks_line_ne x y h]
  rfl

theorem opcodes_line_eq (x : List Char) :
    get_opcodes lineJunk true [x] [x] = [(Tag.eql, 0, 1, 0, 1)] := by
  rw [get_opcodes, blocks_line_eq]
  rfl

theorem opcodes_line_ne (x y : List Char) (h : ¬ x = y) :
    get_opcodes lineJunk true [x] [y] = [(Tag.rep, 0, 1, 0, 1)] := by
  rw [get_opcodes, blocks_line_ne x y h]
  rfl

theorem fancyScan_single_ne (x y : List Char) (h : ¬ x = y) :
    fancyScan [x] [y] 0 1 0 1 =
      if realQuickRatioOf x y > (0.74 : ℚ) && quickRatioOf x y > (0.74 : ℚ) &&
          ratioOf charJunk true x y > (0.74 : ℚ) then
        (ratioOf charJunk true x y, 0, 0, none)
      else ((0.74 : ℚ), 0, 0, none) := by
  simp only [fancyScan, Nat.sub_zero, range_one_eq, List.map_cons, List.map_nil,
    Nat.add_zero, List.foldl_cons, List.foldl_nil, List.getD_cons_zero]
  rw [if_neg h]

theorem fancy_replace_single_ne (x y : List Char) (h : ¬ x = y) :
    fancy_replace 3 [x] [y] 0 1 0 1 = (1, 1) := by
  rw [fancy_replace]
  simp only [fancyScan_single_ne x y h]
  split
  · split
    · rfl
    · rfl
  · rw [if_pos (show (0.74 : ℚ) < 0.75 by norm_num)]

theorem differ_counts_single_eq (x : List Char) :
    differ_counts [x] [x] = (0, 0) := by
  rw [differ_counts, opcodes_line_eq]
  rfl

theorem differ_counts_single_ne (x y : List Char) (h : ¬ x = y) :
    differ_counts [x] [y] = (1, 1) := by
  rw [differ_counts, opcodes_line_ne x y h]
  have h3 : (1 - 0) + (1 - 0) + 1 = 3 := rfl
  simp only [List.foldl_cons, List.foldl_nil, h3, fancy_replace_single_ne x y h]

end Difflib

theorem normalize_nonstrict_no_newline (html : List Char) :
    '\n' ∉ CloakingDetector.normalize_html false html := by
  intro hmem
  simp only [CloakingDetector.normalize_html, Bool.false_eq_true, if_false,
    reduceIte] at hmem
  exact newline_not_mem_collapseWs _ (mem_pyStrip hmem)

theorem splitNl_normalize (html : List Char) :
    pySplitNl (CloakingDetector.normalize_html false html) =
      [CloakingDetector.normalize_html false html] :=
  pySplitNl_no_newline (normalize_nonstrict_no_newline html)

theorem filter_not_mem_self (l : List (List Char)) :
    l.dedup.filter (fun e => decide (¬ e ∈ l)) = [] := by
  rw [List.filter_eq_nil_iff]
  intro a ha
  simp [List.mem_dedup.mp ha]

/-- C8: comparing a document with itself (non-strict mode, the only mode the
repository constructs) yields no detection, zero unique lines on either
side, and empty element-difference lists. -/
theorem compare_self (X : List Char) :
    CloakingDetector.compare false X X =
      { detected := false, bot_only_lines := 0, user_only_lines := 0,
        bot_only_elements := [], user_only_elements := [] } := by
  simp only [CloakingDetector.compare, splitNl_normalize,
    Difflib.differ_counts_single_eq, filter_not_mem_self]
  rfl

/-- C10: in non-strict mode each normalized document is a single line, so
both unique-line counts are at most 1 and the line-count branch (which
needs more than 50 bot-only lines) can never fire: detection reduces to the
SEO-element difference. -/
theorem compare_nonstrict_single_line (A B : List Char) :
    (CloakingDetector.compare false A B).bot_only_lines ≤ 1 ∧
    (CloakingDetector.compare false A B).user_only_lines ≤ 1 ∧
    ((CloakingDetector.compare false A B).detected = true ↔
      ((CloakingDetector.compare false A B).bot_only_elements ≠ [] ∨
       (CloakingDetector.compare false A B).user_only_elements ≠ [])) := by
  simp only [CloakingDetector.compare, splitNl_normalize]
  by_cases hxy : CloakingDetector.normalize_html false B =
      CloakingDetector.normalize_html false A
  · rw [hxy, Difflib.differ_counts_single_eq]
    refine ⟨by norm_num, by norm_num, ?_⟩
    simp [List.length_pos, List.take_eq_nil_iff]
  · rw [Difflib.differ_counts_single_ne _ _ hxy]
    refine ⟨by norm_num, by norm_num, ?_⟩
    simp [List.length_pos, List.take_eq_nil_iff]

theorem ciStarts_spec {pat s m1 r1 : List Char}
    (h : ciStarts pat s = some (m1, r1)) :
    m1.length = pat.length ∧
      ∀ i, i < pat.length →
        (m1.getD i ' ').toLower = (pat.getD i ' ').toLower := by
  induction pat generalizing s m1 r1 with
  | nil =>
    simp only [ciStarts, Option.some.injEq, Prod.mk.injEq] at h
    obtain ⟨h1, _⟩ := h
    subst h1
    exact ⟨rfl, fun i hi => absurd hi (by simp)⟩
  | cons p ps ih =>
    match s with
    | [] =>
      rw [show ciStarts (p :: ps) ([] : List Char) = none from rfl] at h
      exact absurd h (by simp)
    | c :: cs =>
      rw [show ciStarts (p :: ps) (c :: cs) =
        (if c.toLower = p.toLower then
          (ciStarts ps cs).map (fun pr => (c :: pr.1, pr.2))
        else none) from rfl] at h
      split at h
      · rename_i hcp
        match hrec : ciStarts ps cs with
        | none => rw [hrec] at h; simp at h
        | some pr =>
          rw [hrec] at h
          simp only [Option.map_some', Option.some.injEq, Prod.mk.injEq] at h
          obtain ⟨h1, _⟩ := h
          subst h1
          obtain ⟨ihl, ihc⟩ := ih hrec
          refine ⟨by simp [ihl], fun i hi => ?_⟩
          match i with
          | 0 => simpa using hcp
          | Nat.succ j =>
            simp only [List.getD_cons_succ]
            exact ihc j (by simp at hi; omega)
      · simp at h

theorem mem_findAllAt {m : List Char → Option (List Char × List Char)}
    {n : Nat} {s x : List Char} (h : x ∈ findAllAt m n s) :
    ∃ t r, m t = some (x, r) := by
  induction n generalizing s with
  | zero => simp [findAllAt] at h
  | succ k ih =>
    match s with
    | [] => simp [findAllAt] at h
    | c :: cs =>
      simp only [findAllAt] at h
      split at h
      · rename_i pr hpr
        rcases List.mem_cons.mp h with h1 | h1
        · subst h1
          exact ⟨c :: cs, pr.2, by rw [hpr]⟩
        · exact ih h1
      · exact ih h

theorem ciStarts_append_second {pat s m1 r1 : List Char}
    (h : ciStarts pat s = some (m1, r1)) (hlen : 2 ≤ pat.length)
    (u : List Char) :
    2 ≤ (m1 ++ u).length ∧
      ((m1 ++ u).getD 1 ' ').toLower = (pat.getD 1 ' ').toLower := by
  obtain ⟨hl, hc⟩ := ciStarts_spec h
  constructor
  · rw [List.length_append, hl]
    omega
  · rw [List.getD_append _ _ _ _ (by omega)]
    exact hc 1 (by omega)

theorem matchTitleAt_shape {s x r : List Char}
    (h : matchTitleAt s = some (x, r)) :
    2 ≤ x.length ∧ (x.getD 1 ' ').toLower = 't' := by
  simp only [matchTitleAt, Option.bind_eq_bind', Option.bind_eq_some',
    Option.pure_def, Option.some.injEq, Prod.mk.injEq] at h
  obtain ⟨p1, hp1, p2, hp2, p3, _, hx, _⟩ := h
  obtain ⟨m1, r1⟩ := p1
  rw [← hx, List.append_assoc]
  exact ciStarts_append_second hp1 (by decide) _

theorem matchH1At_shape {s x r : List Char}
    (h : matchH1At s = some (x, r)) :
    2 ≤ x.length ∧ (x.getD 1 ' ').toLower = 'h' := by
  simp only [matchH1At, Option.bind_eq_bind', Option.bind_eq_some',
    Option.pure_def, Option.some.injEq, Prod.mk.injEq] at h
  obtain ⟨p1, hp1, p2, hp2, p3, _, hx, _⟩ := h
  obtain ⟨m1, r1⟩ := p1
  rw [← hx, List.append_assoc]
  exact ciStarts_append_second hp1 (by decide) _

theorem matchMetaNameAt_shape {word s x r : List Char}
    (h : matchMetaNameAt word s = some (x, r)) :
    2 ≤ x.length ∧ (x.getD 1 ' ').toLower = 'm' := by
  simp only [matchMetaNameAt, Option.bind_eq_bind', Option.bind_eq_some',
    Option.pure_def] at h
  obtain ⟨p1, hp1, p2, hp2, hif⟩ := h
  obtain ⟨m1, r1⟩ := p1
  split at hif
  · simp only [Option.some.injEq, Prod.mk.injEq] at hif
    obtain ⟨hx, _⟩ := hif
    rw [← hx, List.append_assoc]
    exact ciStarts_append_second hp1 (by decide) _
  · exact absurd hif (by simp)

theorem matchLinkRelAt_shape {word s x r : List Char}
    (h : matchLinkRelAt word s = some (x, r)) :
    2 ≤ x.length ∧ (x.getD 1 ' ').toLower = 'l' := by
  simp only [matchLinkRelAt, Option.bind_eq_bind', Option.bind_eq_some',
    Option.pure_def] at h
  obtain ⟨p1, hp1, p2, hp2, hif⟩ := h
  obtain ⟨m1, r1⟩ := p1
  split at hif
  · simp only [Option.some.injEq, Prod.mk.injEq] at hif
    obtain ⟨hx, _⟩ := hif
    rw [← hx, List.append_assoc]
    exact ciStarts_append_second hp1 (by decide) _
  · exact absurd hif (by simp)

theorem matchLinkHreflangAt_shape {s x r : List Char}
    (h : matchLinkHreflangAt s = some (x, r)) :
    2 ≤ x.length ∧ (x.getD 1 ' ').toLower = 'l' := by
  simp only [matchLinkHreflangAt, Option.bind_eq_bind', Option.bind_eq_some',
    Option.pure_def] at h
  obtain ⟨p1, hp1, p2, hp2, hm⟩ := h
  obtain ⟨m1, r1⟩ := p1
  split at hm
  · split at hm
    · simp only [Option.some.injEq, Prod.mk.injEq] at hm
      obtain ⟨hx, _⟩ := hm
      rw [← hx, List.append_assoc]
      exact ciStarts_append_second hp1 (by decide) _
    · exact absurd hm (by simp)
  · exact absurd hm (by simp)

theorem title_shaped_not_elsewhere (B t : List Char)
    (ht2 : (t.getD 1 ' ').toLower = 't')
    (htB : t ∉ CloakingDetector.findall matchTitleAt B) :
    t ∉ CloakingDetector.extract_seo_elements B := by
  intro hmem
  simp only [CloakingDetector.extract_seo_elements, List.mem_append] at hmem
  rcases hmem with ((((h1 | h2) | h3) | h4) | h5) | h6
  · exact htB h1
  · obtain ⟨s', r', hm⟩ := mem_findAllAt h2
    have := (matchMetaNameAt_shape hm).2
    rw [ht2] at this
    exact absurd this (by decide)
  · obtain ⟨s', r', hm⟩ := mem_findAllAt h3
    have := (matchMetaNameAt_shape hm).2
    rw [ht2] at this
    exact absurd this (by decide)
  · obtain ⟨s', r', hm⟩ := mem_findAllAt h4
    have := (matchLinkRelAt_shape hm).2
    rw [ht2] at this
    exact absurd this (by decide)
  · obtain ⟨s', r', hm⟩ := mem_findAllAt h5
    have := (matchH1At_shape hm).2
    rw [ht2] at this
    exact absurd this (by decide)
  · obtain ⟨s', r', hm⟩ := mem_findAllAt h6
    have := (matchLinkHreflangAt_shape hm).2
    rw [ht2] at this
    exact absurd this (by decide)

/-- C9: if the set of `<title>` matches of the two documents differs, the
comparator reports cloaking (for either mode: SEO extraction runs on the
raw documents). -/
theorem title_diff_detected (strict : Bool) (A B : List Char)
    (h : ∃ t,
      (t ∈ CloakingDetector.findall matchTitleAt A ∧
       t ∉ CloakingDetector.findall matchTitleAt B) ∨
      (t ∈ CloakingDetector.findall matchTitleAt B ∧
       t ∉ CloakingDetector.findall matchTitleAt A)) :
    (CloakingDetector.compare strict A B).detected = true := by
  obtain ⟨t, hcase⟩ := h
  rcases hcase with ⟨hin, hnot⟩ | ⟨hin, hnot⟩
  · obtain ⟨s', r', hm⟩ := mem_findAllAt hin
    have ht := matchTitleAt_shape hm
    have h1 : t ∈ CloakingDetector.extract_seo_elements A := by
      simp only [CloakingDetector.extract_seo_elements, List.mem_append]
      exact Or.inl (Or.inl (Or.inl (Or.inl (Or.inl hin))))
    have h2 : t ∉ CloakingDetector.extract_seo_elements B :=
      title_shaped_not_elsewhere B t ht.2 hnot
    have hf : t ∈ (CloakingDetector.extract_seo_elements A).dedup.filter
        (fun e => decide (¬ e ∈ CloakingDetector.extract_seo_elements B)) := by
      rw [List.mem_filter]
      exact ⟨List.mem_dedup.mpr h1, by simpa using h2⟩
    have hp := List.length_pos.mpr (List.ne_nil_of_mem hf)
    simp only [decide_not] at hp
    simp only [CloakingDetector.compare]
    simp [hp]
  · obtain ⟨s', r', hm⟩ := mem_findAllAt hin
    have ht := matchTitleAt_shape hm
    have h1 : t ∈ CloakingDetector.extract_seo_elements B := by
      simp only [CloakingDetector.extract_seo_elements, List.mem_append]
      exact Or.inl (Or.inl (Or.inl (Or.inl (Or.inl hin))))
    have h2 : t ∉ CloakingDetector.extract_seo_elements A :=
      title_shaped_not_elsewhere A t ht.2 hnot
    have hf : t ∈ (CloakingDetector.extract_seo_elements B).dedup.filter
        (fun e => decide (¬ e ∈ CloakingDetector.extract_seo_elements A)) := by
      rw [List.mem_filter]
      exact ⟨List.mem_dedup.mpr h1, by simpa using h2⟩
    have hp := List.length_pos.mpr (List.ne_nil_of_mem hf)
    simp only [decide_not] at hp
    simp only [CloakingDetector.compare]
    simp [hp]

theorem filter_diff_pos (l1 l2 : List (List Char)) :
    0 < (l1.dedup.filter (fun e => decide (¬ e ∈ l2))).length ↔
      ∃ x ∈ l1, x ∉ l2 := by
  rw [List.length_pos, ne_eq, List.filter_eq_nil_iff]
  push_neg
  constructor
  · rintro ⟨a, ha, hp⟩
    exact ⟨a, List.mem_dedup.mp ha, by simpa using hp⟩
  · rintro ⟨a, ha, hp⟩
    exact ⟨a, List.mem_dedup.mpr ha, by simpa using hp⟩

/-- C4 (amended): the comparator detects exactly when the SEO-element sets
differ in either direction, or when the bot side's unique-line count
exceeds both the absolute threshold (more than 50 lines) and the relative
threshold (more than a tenth of the bot side's total line count).  The
user side's unique-line count plays no role. -/
theorem compare_detected_rule (strict : Bool) (a b : List Char) :
    (CloakingDetector.compare strict a b).detected = true ↔
      ((∃ x ∈ CloakingDetector.extract_seo_elements a,
          x ∉ CloakingDetector.extract_seo_elements b) ∨
       (∃ x ∈ CloakingDetector.extract_seo_elements b,
          x ∉ CloakingDetector.extract_seo_elements a) ∨
       (50 < (CloakingDetector.compare strict a b).bot_only_lines ∧
        (pySplitNl (CloakingDetector.normalize_html strict a)).length <
          10 * (CloakingDetector.compare strict a b).bot_only_lines)) := by
  rw [show (CloakingDetector.compare strict a b).bot_only_lines =
    (Difflib.differ_counts
      (pySplitNl (CloakingDetector.normalize_html strict b))
      (pySplitNl (CloakingDetector.normalize_html strict a))).2 from rfl]
  rw [show (CloakingDetector.compare strict a b).detected =
    (decide (0 < ((CloakingDetector.extract_seo_elements a).dedup.filter
        (fun e => decide (¬ e ∈ CloakingDetector.extract_seo_elements b))).length) ||
     decide (0 < ((CloakingDetector.extract_seo_elements b).dedup.filter
        (fun e => decide (¬ e ∈ CloakingDetector.extract_seo_elements a))).length) ||
     (decide (50 < (Difflib.differ_counts
        (pySplitNl (CloakingDetector.normalize_html strict b))
        (pySplitNl (CloakingDetector.normalize_html strict a))).2) &&
      decide ((pySplitNl (CloakingDetector.normalize_html strict a)).length <
        10 * (Difflib.differ_counts
          (pySplitNl (CloakingDetector.normalize_html strict b))
          (pySplitNl (CloakingDetector.normalize_html strict a))).2))) from rfl]
  simp only [Bool.or_eq_true, Bool.and_eq_true, decide_eq_true_eq,
    filter_diff_pos]
  rw [or_assoc]

/-- The detection rule exactly as the specification words it: detected when
the SEO-element set differs in any way between sides, or when one side's
(either side's) unique-line count exceeds both the absolute threshold
(50 lines) and the relative threshold (more than 10% of that side's total
line count).  This definition follows the specification's words and exists
only to be compared against the comparator's actual rule. -/
def spec_detected_rule (strict : Bool) (a b : List Char) : Prop :=
  (∃ x ∈ CloakingDetector.extract_seo_elements a,
      x ∉ CloakingDetector.extract_seo_elements b) ∨
  (∃ x ∈ CloakingDetector.extract_seo_elements b,
      x ∉ CloakingDetector.extract_seo_elements a) ∨
  (50 < (CloakingDetector.compare strict a b).bot_only_lines ∧
   (pySplitNl (CloakingDetector.normalize_html strict a)).length <
     10 * (CloakingDetector.compare strict a b).bot_only_lines) ∨
  (50 < (CloakingDetector.compare strict a b).user_only_lines ∧
   (pySplitNl (CloakingDetector.normalize_html strict b)).length <
     10 * (CloakingDetector.compare strict a b).user_only_lines)

/-- Counterexample bot-side document: one line, no SEO elements. -/
def c4bot : List Char := "common".data

/-- Counterexample user-side document: the bot side's line followed by 52
distinct extra lines, no SEO elements. -/
def c4user : List Char :=
  (String.intercalate "\n"
    ("common" :: (List.range 52).map (fun n => "u" ++ toString n))).data

/-- C4 (counterexample): the claimed symmetric detection rule is false on
the code: here the user side's unique-line count (52) exceeds both the
absolute threshold (50) and the relative threshold (10% of its 53 total
lines), and the SEO-element sets agree, yet `compare` reports
`detected = false` — the code consults only the bot side's count. -/
theorem one_sided_line_rule_counterexample :
    spec_detected_rule true c4bot c4user ∧
    (CloakingDetector.compare true c4bot c4user).detected = false := by
  constructor
  · refine Or.inr (Or.inr (Or.inr ?_))
    constructor
    · decide
    · decide
  · decide

/-- Witness for the C9 theorem at concrete documents differing only in
their titles. -/
theorem title_diff_detected_witness :
    (∃ t,
      (t ∈ CloakingDetector.findall matchTitleAt "<title>alpha</title>".data ∧
       t ∉ CloakingDetector.findall matchTitleAt "<title>beta</title>".data) ∨
      (t ∈ CloakingDetector.findall matchTitleAt "<title>beta</title>".data ∧
       t ∉ CloakingDetector.findall matchTitleAt "<title>alpha</title>".data)) ∧
    (CloakingDetector.compare false "<title>alpha</title>".data
      "<title>beta</title>".data).detected = true :=
  ⟨⟨"<title>alpha</title>".data, Or.inl ⟨by decide, by decide⟩⟩,
   title_diff_detected false "<title>alpha</title>".data
     "<title>beta</title>".data
     ⟨"<title>alpha</title>".data, Or.inl ⟨by decide, by decide⟩⟩⟩
